import Mathlib

/-!
# Verification of the River Bank bot ledger core (`bank_bot.py`)

A shallow embedding of the ledger-mutating core of `bank_bot.py`:

* the spreadsheet is a `List Account` (one row per member, 0-based rows);
  cell writes become functional row updates;
* Python `dict` contribution maps (column 8, stored as JSON) become
  association lists with unique keys (`dictGet?`, `dictSet`, `dictDel`);
* the in-memory `pending_transfers` dict becomes an association list from
  transfer-id strings to `PendingTransfer` records;
* Python `int(s)` becomes `pythonInt : String → Option Int` (`none` models
  the `ValueError` path);
* chat I/O, scheduling and logging are dropped: only the store mutations
  and the user-visible outcome of each handler are represented.
-/

namespace BankBot

/-- Currency marker prepended to every amount the bot prints. -/
def CURRENCY : String := "₱"

/-- The bank owner's numeric id (`OWNER_ID` in the source). -/
def OWNER_ID : Nat := 1768830793

/-- One spreadsheet row: columns 1-8 of the sheet
(memberId, displayName, handle, profileLink, balance, lastUpdated,
transactionLog, contributions).  The balance cell stores a decimal string
read back with `int(...)`, so it is an `Int` here; the transaction-log cell
is a newline-joined string of entries, newest first, so it is a
`List String`; the contributions cell is a JSON object, so it is an
association list. -/
structure Account where
  memberId : Nat
  displayName : String
  handle : String
  profileLink : String
  balance : Int
  lastUpdated : String
  transactionLog : List String
  contributions : List (String × Int)
deriving DecidableEq, Repr, Inhabited

/-- Read row `r` (0-based) of the sheet; a default row models reading past
the end, which the theorems exclude with `r < sheet.length`. -/
def getRow : List Account → Nat → Account
  | [], _ => default
  | a :: _, 0 => a
  | _ :: rest, n + 1 => getRow rest n

/-- Update row `r` of the sheet in place (no-op past the end). -/
def setRowF : List Account → Nat → (Account → Account) → List Account
  | [], _, _ => []
  | a :: rest, 0, f => f a :: rest
  | a :: rest, n + 1, f => a :: setRowF rest n f

/-- Embeds `sheet.update_cell(row, 5, str(newBalance))`. -/
def writeBalance (sheet : List Account) (r : Nat) (b : Int) : List Account :=
  setRowF sheet r (fun a => { a with balance := b })

/-- Embeds `sheet.update_cell(row, 6, format_datetime())`. -/
def writeTimestamp (sheet : List Account) (r : Nat) (t : String) : List Account :=
  setRowF sheet r (fun a => { a with lastUpdated := t })

/-- Embeds `sheet.update_cell(row, 7, entry + "\n" + prev_tx)`: prepend one
transaction-log entry. -/
def prependLog (sheet : List Account) (r : Nat) (e : String) : List Account :=
  setRowF sheet r (fun a => { a with transactionLog := e :: a.transactionLog })

/-- Embeds `sheet.update_cell(row, 7, s)` with a whole log value (used by `clear`). -/
def writeLog (sheet : List Account) (r : Nat) (l : List String) : List Account :=
  setRowF sheet r (fun a => { a with transactionLog := l })

/-- Embeds `sheet.update_cell(row, 8, json.dumps(contributions))`. -/
def writeContrib (sheet : List Account) (r : Nat) (c : List (String × Int)) :
    List Account :=
  setRowF sheet r (fun a => { a with contributions := c })

/-! ## Python dict operations (contribution maps) -/

/-- Python `d.get(k)` / `d[k]` on a JSON-decoded contributions dict. -/
def dictGet? (m : List (String × Int)) (k : String) : Option Int :=
  (m.find? (fun kv => kv.1 = k)).map (fun kv => kv.2)

/-- Python `d.get(k, dflt)`. -/
def dictGetD (m : List (String × Int)) (k : String) (dflt : Int) : Int :=
  (dictGet? m k).getD dflt

/-- Python `k in d`. -/
def dictHas (m : List (String × Int)) (k : String) : Bool :=
  (m.find? (fun kv => kv.1 = k)).isSome

/-- Python `d[k] = v`: replace the first binding of `k`, or append a new one. -/
def dictSet : List (String × Int) → String → Int → List (String × Int)
  | [], k, v => [(k, v)]
  | kv :: rest, k, v =>
    if kv.1 = k then (k, v) :: rest else kv :: dictSet rest k v

/-- Python `del d[k]`: drop every binding of `k` (keys are unique in a dict). -/
def dictDel : List (String × Int) → String → List (String × Int)
  | [], _ => []
  | kv :: rest, k => if kv.1 = k then dictDel rest k else kv :: dictDel rest k

/-! ## Errors and parsing -/

/-- The user-visible failure classes of the modelled handlers. -/
inductive BankError where
  | alreadyExists
  | invalidAmount
deriving DecidableEq, Repr

/-- The digit run accepted by Python `int(...)`: nonempty, all digits. -/
def parseDigits (cs : List Char) : Option Nat :=
  if cs ≠ [] ∧ cs.all Char.isDigit then
    some (cs.foldl (fun acc c => acc * 10 + (c.toNat - 48)) 0)
  else none

/-- Python `int(s)` on a decimal string: an optional sign then digits,
`none` for the `ValueError` path (in particular on any fractional input
such as `"1.5"`). -/
def pythonInt (s : String) : Option Int :=
  match s.data with
  | [] => none
  | c :: rest =>
    if c = '-' then (parseDigits rest).map (fun n => -(n : Int))
    else if c = '+' then (parseDigits rest).map (fun n => (n : Int))
    else (parseDigits (c :: rest)).map (fun n => (n : Int))

/-! ## Account directory (`find_user_row`, `/new`) -/

/-- Embeds `find_user_row(user_id)`: first row whose id column matches (0-based). -/
def find_user_row (sheet : List Account) (userId : Nat) : Option Nat :=
  sheet.findIdx? (fun a => a.memberId = userId)

/-- The row appended by `/new`: balance `"0"`, current timestamp, empty
transaction log; column 8 is left blank, which the readers decode as an
empty contributions dict. -/
def newAccountRow (userId : Nat) (name username link now : String) : Account :=
  { memberId := userId, displayName := name, handle := username,
    profileLink := link, balance := 0, lastUpdated := now,
    transactionLog := [], contributions := [] }

/-- The account-creating core of `/new`: fail if the member already has a
row, otherwise `sheet.append_row(...)`. -/
def createAccount (sheet : List Account) (userId : Nat)
    (name username link now : String) : Except BankError (List Account) :=
  match find_user_row sheet userId with
  | some _ => .error .alreadyExists
  | none => .ok (sheet ++ [newAccountRow userId name username link now])

/-! ## Contribution ledger (`/add`, `/use`, `/clear`) -/

/-- The log entry `/add` prepends: `f"{now} + ₱{amount} {admin_name}"`. -/
def add_entry (now : String) (amount : Int) (adminName : String) : String :=
  now ++ " + " ++ CURRENCY ++ toString amount ++ " " ++ adminName

/-- The log entry `/use` prepends: `f"{now} - ₱{amount} {admin_name}"`. -/
def use_entry (now : String) (amount : Int) (adminName : String) : String :=
  now ++ " - " ++ CURRENCY ++ toString amount ++ " " ++ adminName

/-- The unified mutation core of `/add` after amount parsing and row
resolution: balance += amount, refresh timestamp, prepend a log entry,
then `contributions[admin_name] = contributions.get(admin_name, 0) + amount`
(no deletion of non-positive results on this path). -/
def applyAdd (sheet : List Account) (r : Nat) (amount : Int)
    (adminName now : String) : List Account :=
  let current_balance := (getRow sheet r).balance
  let s1 := writeBalance sheet r (current_balance + amount)
  let s2 := writeTimestamp s1 r now
  let s3 := prependLog s2 r (add_entry now amount adminName)
  let contributions := (getRow s3 r).contributions
  writeContrib s3 r
    (dictSet contributions adminName (dictGetD contributions adminName 0 + amount))

/-- The unified mutation core of `/use` after amount parsing and row
resolution: balance -= amount, refresh timestamp, prepend a log entry;
then only if `admin_name in contributions`, subtract the amount and delete
the entry when the result is ≤ 0 (otherwise column 8 is not written). -/
def applyUse (sheet : List Account) (r : Nat) (amount : Int)
    (adminName now : String) : List Account :=
  let current_balance := (getRow sheet r).balance
  let s1 := writeBalance sheet r (current_balance - amount)
  let s2 := writeTimestamp s1 r now
  let s3 := prependLog s2 r (use_entry now amount adminName)
  let contributions := (getRow s3 r).contributions
  if dictHas contributions adminName then
    let v := dictGetD contributions adminName 0 - amount
    let contributions' :=
      if v ≤ 0 then dictDel contributions adminName
      else dictSet contributions adminName v
    writeContrib s3 r contributions'
  else s3

/-- The mutation core of `/clear`: balance to `"0"`, fresh timestamp, blank
transaction-log cell, blank contributions cell. -/
def applyClear (sheet : List Account) (r : Nat) (now : String) : List Account :=
  let s1 := writeBalance sheet r 0
  let s2 := writeTimestamp s1 r now
  let s3 := writeLog s2 r []
  writeContrib s3 r []

/-- Embeds `get_contribution_breakdown`, reduced to its data content: the decoded
contribution pairs sorted by amount, descending (formatting is I/O glue). -/
def get_contribution_breakdown (sheet : List Account) (r : Nat) :
    List (String × Int) :=
  ((getRow sheet r).contributions).mergeSort (fun a b => b.2 ≤ a.2)

/-- Embeds `/add` from the raw amount argument: `int(amount_arg)` with the
`ValueError` path reported as `InvalidAmount`, then the mutation core with
no range check on the amount. -/
def add_command (sheet : List Account) (r : Nat) (amountArg : String)
    (adminName now : String) : Except BankError (List Account) :=
  match pythonInt amountArg with
  | none => .error .invalidAmount
  | some amount => .ok (applyAdd sheet r amount adminName now)

/-- Embeds `/use` from the raw amount argument, mirroring `add_command`. -/
def use_command (sheet : List Account) (r : Nat) (amountArg : String)
    (adminName now : String) : Except BankError (List Account) :=
  match pythonInt amountArg with
  | none => .error .invalidAmount
  | some amount => .ok (applyUse sheet r amount adminName now)

/-- The amount validation of `/transfer`: `int(...)` with `ValueError` as
`InvalidAmount`, then reject `amount <= 0`. -/
def transfer_validate_amount (amountArg : String) : Except BankError Int :=
  match pythonInt amountArg with
  | none => .error .invalidAmount
  | some amount => if amount ≤ 0 then .error .invalidAmount else .ok amount

/-! ## Transfer protocol (`pending_transfers`, confirm/cancel callbacks) -/

/-- One entry of the in-memory `pending_transfers` dict. -/
structure PendingTransfer where
  sender_id : Nat
  sender_row : Nat
  target_id : Nat
  target_row : Nat
  target_name : String
  amount : Int
deriving DecidableEq, Repr, Inhabited

/-- The `pending_transfers` dict: transfer-id string to proposal. -/
abbrev PendingMap : Type := List (String × PendingTransfer)

/-- Python `pending_transfers[transfer_id]` / `transfer_id in pending_transfers`. -/
def lookupPending (p : PendingMap) (tid : String) : Option PendingTransfer :=
  (p.find? (fun kv => kv.1 = tid)).map (fun kv => kv.2)

/-- Python `del pending_transfers[transfer_id]` (keys are unique in a dict). -/
def delPending : PendingMap → String → PendingMap
  | [], _ => []
  | kv :: rest, tid =>
    if kv.1 = tid then delPending rest tid else kv :: delPending rest tid

/-- The sender-side log entry of a confirmed transfer:
`f"{now} - ₱{amount} {target_name}"`. -/
def transfer_sender_entry (now : String) (amount : Int) (targetName : String) :
    String :=
  now ++ " - " ++ CURRENCY ++ toString amount ++ " " ++ targetName

/-- The receiver-side log entry of a confirmed transfer:
`f"{now} + ₱{amount} {sender_name}"`, where the sender name is re-read from
the sheet (column 2) after the sender-side writes. -/
def transfer_target_entry (now : String) (amount : Int) (senderName : String) :
    String :=
  now ++ " + " ++ CURRENCY ++ toString amount ++ " " ++ senderName

/-- The cell-write sequence of a successful `confirm_` callback, in source
order: sender balance and timestamp, sender log entry, then (re-reading the
target balance from the updated sheet) target balance and timestamp, then
(re-reading the sender's display name, column 2) target log entry. -/
def confirmWrites (sheet : List Account) (td : PendingTransfer) (now : String) :
    List Account :=
  let sender_balance := (getRow sheet td.sender_row).balance
  let s1 := writeBalance sheet td.sender_row (sender_balance - td.amount)
  let s2 := writeTimestamp s1 td.sender_row now
  let s3 := prependLog s2 td.sender_row
    (transfer_sender_entry now td.amount td.target_name)
  let target_balance := (getRow s3 td.target_row).balance
  let s4 := writeBalance s3 td.target_row (target_balance + td.amount)
  let s5 := writeTimestamp s4 td.target_row now
  let sender_name := (getRow s5 td.sender_row).displayName
  prependLog s5 td.target_row (transfer_target_entry now td.amount sender_name)

/-- How a `confirm_` callback ends, as shown to the user. -/
inductive ConfirmOutcome where
  | expired
  | notOwner
  | insufficientFunds
  | success
deriving DecidableEq, Repr

/-- The state after a `confirm_` callback: outcome, sheet, pending dict. -/
structure ConfirmResult where
  outcome : ConfirmOutcome
  sheet : List Account
  pending : PendingMap
deriving DecidableEq

/-- The `confirm_` branch of `button_callback`: unknown id fails expired;
a confirmer other than the proposing sender fails not-owner; a re-read
sender balance below the amount fails insufficient-funds and also discards
the proposal; otherwise the transfer writes run and the proposal is
discarded. -/
def button_confirm (sheet : List Account) (pending : PendingMap)
    (tid : String) (userId : Nat) (now : String) : ConfirmResult :=
  match lookupPending pending tid with
  | none => ⟨.expired, sheet, pending⟩
  | some td =>
    if td.sender_id = userId then
      if (getRow sheet td.sender_row).balance < td.amount then
        ⟨.insufficientFunds, sheet, delPending pending tid⟩
      else
        ⟨.success, confirmWrites sheet td now, delPending pending tid⟩
    else ⟨.notOwner, sheet, pending⟩

/-- How a `cancel_` callback ends, as shown to the user. -/
inductive CancelOutcome where
  | notOwner
  | cancelled
deriving DecidableEq, Repr

/-- The `cancel_` branch of `button_callback`: a known id cancelled by
anyone but its sender fails not-owner; otherwise the entry (if any) is
discarded and the cancellation message is shown. -/
def button_cancel (pending : PendingMap) (tid : String) (userId : Nat) :
    CancelOutcome × PendingMap :=
  match lookupPending pending tid with
  | some td =>
    if td.sender_id = userId then (.cancelled, delPending pending tid)
    else (.notOwner, pending)
  | none => (.cancelled, pending)

/-! ## Access policy persistence (`ADMINS`, `save_admins`, `/prom`, `/dem`) -/

/-- The literal the source assigns to `ADMINS` at module load
(`ADMINS = ["reviosa", "zaonoror"]`). -/
def initialADMINS : List String := ["reviosa", "zaonoror"]

/-- The process-wide manager state: the in-memory `ADMINS` list and the
contents of the `admins.json` file (`none` until first written). -/
structure AdminState where
  admins : List String
  savedFile : Option (List String)
deriving DecidableEq, Repr

/-- Embeds `save_admins()`: rewrite `admins.json` with the current list. -/
def save_admins (st : AdminState) : AdminState :=
  { st with savedFile := some st.admins }

/-- How `/prom` ends. -/
inductive PromOutcome where
  | notOwnerCaller
  | ownerImmutable
  | alreadyManager
  | promoted
deriving DecidableEq, Repr

/-- How `/dem` ends. -/
inductive DemOutcome where
  | notOwnerCaller
  | ownerImmutable
  | notManager
  | demoted
deriving DecidableEq, Repr

/-- The `/prom` handler: owner-only, cannot touch the owner, rejects an
existing manager, else appends the handle and calls `save_admins`. -/
def prom (st : AdminState) (actorId targetId : Nat) (targetUsername : String) :
    PromOutcome × AdminState :=
  if actorId ≠ OWNER_ID then (.notOwnerCaller, st)
  else if targetId = OWNER_ID then (.ownerImmutable, st)
  else if targetUsername ∈ st.admins then (.alreadyManager, st)
  else (.promoted, save_admins { st with admins := st.admins ++ [targetUsername] })

/-- The `/dem` handler: owner-only, cannot touch the owner, rejects a
non-manager, else removes the handle and calls `save_admins`. -/
def dem (st : AdminState) (actorId targetId : Nat) (targetUsername : String) :
    DemOutcome × AdminState :=
  if actorId ≠ OWNER_ID then (.notOwnerCaller, st)
  else if targetId = OWNER_ID then (.ownerImmutable, st)
  else if targetUsername ∉ st.admins then (.notManager, st)
  else (.demoted, save_admins { st with admins := st.admins.erase targetUsername })

/-- The manager list a freshly started process runs with.  The source
initialises `ADMINS` to the hardcoded literal at line 26 and contains no
code that reads `admins.json` back, so the persisted file is ignored. -/
def startupAdmins (_savedFile : Option (List String)) : List String :=
  initialADMINS

/-! ## Concrete fixtures used by witnesses and counterexamples -/

/-- A funded demo account on row 0. -/
def avaAcct : Account :=
  { memberId := 42, displayName := "Ava", handle := "@ava",
    profileLink := "ava-link", balance := 500, lastUpdated := "t0",
    transactionLog := ["t0 + ₱500 Root"], contributions := [("Root", 500)] }

/-- An unfunded demo account on row 1. -/
def bobAcct : Account :=
  { memberId := 7, displayName := "Bob", handle := "@bob",
    profileLink := "bob-link", balance := 100, lastUpdated := "t0",
    transactionLog := [], contributions := [] }

/-- A two-row demo sheet. -/
def demoSheet : List Account := [avaAcct, bobAcct]

/-- A coverable pending proposal: Ava (row 0) sends 200 to Bob (row 1). -/
def demoTransfer : PendingTransfer :=
  { sender_id := 42, sender_row := 0, target_id := 7, target_row := 1,
    target_name := "Bob", amount := 200 }

/-- An uncoverable pending proposal: Ava sends 800 with balance 500. -/
def bigTransfer : PendingTransfer :=
  { sender_id := 42, sender_row := 0, target_id := 7, target_row := 1,
    target_name := "Bob", amount := 800 }

/-- A pending map holding both demo proposals. -/
def demoPending : PendingMap := [("tid1", demoTransfer), ("tid2", bigTransfer)]

/-! ## Helper lemmas -/


theorem length_setRowF (s : List Account) (r : Nat) (f : Account → Account) :
    (setRowF s r f).length = s.length := by
  induction s generalizing r with
  | nil => rfl
  | cons a rest ih =>
    cases r with
    | zero => rfl
    | succ n => simp [setRowF, ih]

theorem getRow_setRowF_self (s : List Account) (r : Nat) (f : Account → Account)
    (h : r < s.length) : getRow (setRowF s r f) r = f (getRow s r) := by
  induction s generalizing r with
  | nil => simp at h
  | cons a rest ih =>
    cases r with
    | zero => rfl
    | succ n =>
      simp only [setRowF, getRow]
      exact ih n (by simpa using h)

theorem getRow_setRowF_ne (s : List Account) (r : Nat) (f : Account → Account)
    (r' : Nat) (h : r ≠ r') : getRow (setRowF s r f) r' = getRow s r' := by
  induction s generalizing r r' with
  | nil => rfl
  | cons a rest ih =>
    cases r with
    | zero =>
      cases r' with
      | zero => exact absurd rfl h
      | succ m => rfl
    | succ n =>
      cases r' with
      | zero => rfl
      | succ m =>
        simp only [setRowF, getRow]
        exact ih n m (by omega)

theorem dictGet?_dictSet_self (m : List (String × Int)) (k : String) (v : Int) :
    dictGet? (dictSet m k v) k = some v := by
  induction m with
  | nil => simp [dictGet?, dictSet, List.find?]
  | cons kv rest ih =>
    by_cases h : kv.1 = k
    · simp [dictGet?, dictSet, h, List.find?]
    · simp only [dictSet, if_neg h]
      simpa [dictGet?, List.find?, h] using ih

theorem dictGet?_dictDel_self (m : List (String × Int)) (k : String) :
    dictGet? (dictDel m k) k = none := by
  induction m with
  | nil => rfl
  | cons kv rest ih =>
    by_cases h : kv.1 = k
    · simpa [dictDel, h] using ih
    · simp only [dictDel, if_neg h]
      simpa [dictGet?, List.find?, h] using ih

theorem dictGet?_eq_none_of_not_has (m : List (String × Int)) (k : String)
    (h : dictHas m k = false) : dictGet? m k = none := by
  unfold dictHas at h
  unfold dictGet?
  cases hf : m.find? (fun kv => kv.1 = k) with
  | none => rfl
  | some kv => rw [hf] at h; simp at h

theorem getRow_writeBalance_self (s : List Account) (r : Nat) (b : Int)
    (h : r < s.length) :
    getRow (writeBalance s r b) r = { getRow s r with balance := b } :=
  getRow_setRowF_self s r _ h

theorem getRow_writeBalance_ne (s : List Account) (r : Nat) (b : Int)
    (r' : Nat) (h : r ≠ r') : getRow (writeBalance s r b) r' = getRow s r' :=
  getRow_setRowF_ne s r _ r' h

theorem length_writeBalance (s : List Account) (r : Nat) (b : Int) :
    (writeBalance s r b).length = s.length :=
  length_setRowF s r _

theorem getRow_writeTimestamp_self (s : List Account) (r : Nat) (t : String)
    (h : r < s.length) :
    getRow (writeTimestamp s r t) r = { getRow s r with lastUpdated := t } :=
  getRow_setRowF_self s r _ h

theorem getRow_writeTimestamp_ne (s : List Account) (r : Nat) (t : String)
    (r' : Nat) (h : r ≠ r') : getRow (writeTimestamp s r t) r' = getRow s r' :=
  getRow_setRowF_ne s r _ r' h

theorem length_writeTimestamp (s : List Account) (r : Nat) (t : String) :
    (writeTimestamp s r t).length = s.length :=
  length_setRowF s r _

theorem getRow_prependLog_self (s : List Account) (r : Nat) (e : String)
    (h : r < s.length) :
    getRow (prependLog s r e) r
      = { getRow s r with transactionLog := e :: (getRow s r).transactionLog } :=
  getRow_setRowF_self s r _ h

theorem getRow_prependLog_ne (s : List Account) (r : Nat) (e : String)
    (r' : Nat) (h : r ≠ r') : getRow (prependLog s r e) r' = getRow s r' :=
  getRow_setRowF_ne s r _ r' h

theorem length_prependLog (s : List Account) (r : Nat) (e : String) :
    (prependLog s r e).length = s.length :=
  length_setRowF s r _

theorem getRow_writeLog_self (s : List Account) (r : Nat) (l : List String)
    (h : r < s.length) :
    getRow (writeLog s r l) r = { getRow s r with transactionLog := l } :=
  getRow_setRowF_self s r _ h

theorem getRow_writeLog_ne (s : List Account) (r : Nat) (l : List String)
    (r' : Nat) (h : r ≠ r') : getRow (writeLog s r l) r' = getRow s r' :=
  getRow_setRowF_ne s r _ r' h

theorem length_writeLog (s : List Account) (r : Nat) (l : List String) :
    (writeLog s r l).length = s.length :=
  length_setRowF s r _

theorem getRow_writeContrib_self (s : List Account) (r : Nat)
    (c : List (String × Int)) (h : r < s.length) :
    getRow (writeContrib s r c) r = { getRow s r with contributions := c } :=
  getRow_setRowF_self s r _ h

theorem getRow_writeContrib_ne (s : List Account) (r : Nat)
    (c : List (String × Int)) (r' : Nat) (h : r ≠ r') :
    getRow (writeContrib s r c) r' = getRow s r' :=
  getRow_setRowF_ne s r _ r' h

theorem length_writeContrib (s : List Account) (r : Nat)
    (c : List (String × Int)) : (writeContrib s r c).length = s.length :=
  length_setRowF s r _

theorem parseDigits_eq_none_of_dot (cs : List Char) (h : '.' ∈ cs) :
    parseDigits cs = none := by
  have hall : cs.all Char.isDigit = false := by
    apply List.all_eq_false.mpr
    exact ⟨'.', h, by decide⟩
  simp [parseDigits, hall]

theorem pythonInt_eq_none_of_dot (s : String) (h : '.' ∈ s.data) :
    pythonInt s = none := by
  unfold pythonInt
  cases hd : s.data with
  | nil => rfl
  | cons c rest =>
    rw [hd] at h
    by_cases hc : c = '-'
    · have hr : '.' ∈ rest := by
        rcases List.mem_cons.mp h with h1 | h1
        · exact absurd (h1 ▸ hc) (by decide)
        · exact h1
      simp [hc, parseDigits_eq_none_of_dot rest hr]
    · by_cases hp : c = '+'
      · have hr : '.' ∈ rest := by
          rcases List.mem_cons.mp h with h1 | h1
          · exact absurd (h1 ▸ hp) (by decide)
          · exact h1
        simp [hc, hp, parseDigits_eq_none_of_dot rest hr]
      · simp [hc, hp, parseDigits_eq_none_of_dot (c :: rest) h]

theorem lookupPending_delPending (p : PendingMap) (tid : String) :
    lookupPending (delPending p tid) tid = none := by
  induction p with
  | nil => rfl
  | cons kv rest ih =>
    by_cases h : kv.1 = tid
    · simpa [delPending, h] using ih
    · simp only [delPending, if_neg h]
      simpa [lookupPending, List.find?, h] using ih

theorem confirmWrites_spec (sheet : List Account) (td : PendingTransfer)
    (now : String) (hs : td.sender_row < sheet.length)
    (ht : td.target_row < sheet.length)
    (hne : td.sender_row ≠ td.target_row) :
    getRow (confirmWrites sheet td now) td.sender_row =
      { getRow sheet td.sender_row with
        balance := (getRow sheet td.sender_row).balance - td.amount
        lastUpdated := now
        transactionLog := transfer_sender_entry now td.amount td.target_name ::
          (getRow sheet td.sender_row).transactionLog } ∧
    getRow (confirmWrites sheet td now) td.target_row =
      { getRow sheet td.target_row with
        balance := (getRow sheet td.target_row).balance + td.amount
        lastUpdated := now
        transactionLog := transfer_target_entry now td.amount
            (getRow sheet td.sender_row).displayName ::
          (getRow sheet td.target_row).transactionLog } ∧
    (∀ r, r ≠ td.sender_row → r ≠ td.target_row →
      getRow (confirmWrites sheet td now) r = getRow sheet r) := by
  refine ⟨?_, ?_, ?_⟩
  · simp only [confirmWrites]
    simp [getRow_writeBalance_self, getRow_writeBalance_ne,
      getRow_writeTimestamp_self, getRow_writeTimestamp_ne,
      getRow_prependLog_self, getRow_prependLog_ne,
      length_writeBalance, length_writeTimestamp, length_prependLog,
      hs, ht, hne, Ne.symm hne]
  · simp only [confirmWrites]
    simp [getRow_writeBalance_self, getRow_writeBalance_ne,
      getRow_writeTimestamp_self, getRow_writeTimestamp_ne,
      getRow_prependLog_self, getRow_prependLog_ne,
      length_writeBalance, length_writeTimestamp, length_prependLog,
      hs, ht, hne, Ne.symm hne]
  · intro r hr1 hr2
    simp only [confirmWrites]
    simp [getRow_writeBalance_ne, getRow_writeTimestamp_ne,
      getRow_prependLog_ne, Ne.symm hr1, Ne.symm hr2]

/-! ## Claims -/

/-- C8: `createAccount` fails with `AlreadyExists` whenever `findByMemberId`
already finds a row for the member id, and otherwise appends exactly one new
account row with balance 0, the current timestamp, an empty transaction log,
and empty contributions. -/
theorem c8_createAccount_spec (sheet : List Account) (userId : Nat)
    (name username link now : String) :
    (∀ r, find_user_row sheet userId = some r →
      createAccount sheet userId name username link now = .error .alreadyExists) ∧
    (find_user_row sheet userId = none →
      createAccount sheet userId name username link now =
        .ok (sheet ++ [newAccountRow userId name username link now])) ∧
    (newAccountRow userId name username link now).balance = 0 ∧
    (newAccountRow userId name username link now).lastUpdated = now ∧
    (newAccountRow userId name username link now).transactionLog = [] ∧
    (newAccountRow userId name username link now).contributions = [] := by
  refine ⟨?_, ?_, rfl, rfl, rfl, rfl⟩
  · intro r h
    simp [createAccount, h]
  · intro h
    simp [createAccount, h]

theorem c8_createAccount_spec_witness :
    createAccount demoSheet 42 "Ava2" "@ava" "ava-link" "t1" =
      .error .alreadyExists ∧
    createAccount demoSheet 99 "Zed" "@zed" "zed-link" "t1" =
      .ok (demoSheet ++ [newAccountRow 99 "Zed" "@zed" "zed-link" "t1"]) :=
  ⟨(c8_createAccount_spec demoSheet 42 "Ava2" "@ava" "ava-link" "t1").1 0
      (by decide),
   (c8_createAccount_spec demoSheet 99 "Zed" "@zed" "zed-link" "t1").2.1
      (by decide)⟩

/-- C7: `add` and `use` accept every parsed integer amount, zero and
negative included; any fractional amount argument fails with
`InvalidAmount` for add/use/transfer; and transfer additionally fails with
`InvalidAmount` for every amount ≤ 0. -/
theorem c7_amount_validation :
    (∀ (sheet : List Account) (r : Nat) (s : String) (n : Int)
        (adminName now : String), pythonInt s = some n →
      add_command sheet r s adminName now =
        .ok (applyAdd sheet r n adminName now)) ∧
    (∀ (sheet : List Account) (r : Nat) (s : String) (n : Int)
        (adminName now : String), pythonInt s = some n →
      use_command sheet r s adminName now =
        .ok (applyUse sheet r n adminName now)) ∧
    (∀ (sheet : List Account) (r : Nat) (s : String) (adminName now : String),
      '.' ∈ s.data →
      add_command sheet r s adminName now = .error .invalidAmount ∧
      use_command sheet r s adminName now = .error .invalidAmount ∧
      transfer_validate_amount s = .error .invalidAmount) ∧
    (∀ (s : String) (n : Int), pythonInt s = some n → n ≤ 0 →
      transfer_validate_amount s = .error .invalidAmount) := by
  refine ⟨?_, ?_, ?_, ?_⟩
  · intro sheet r s n adminName now h
    simp [add_command, h]
  · intro sheet r s n adminName now h
    simp [use_command, h]
  · intro sheet r s adminName now h
    have hn := pythonInt_eq_none_of_dot s h
    exact ⟨by simp [add_command, hn], by simp [use_command, hn],
           by simp [transfer_validate_amount, hn]⟩
  · intro s n h hle
    simp [transfer_validate_amount, h, hle]

theorem c7_amount_validation_witness :
    add_command demoSheet 0 "-5" "Root" "t1" =
      .ok (applyAdd demoSheet 0 (-5) "Root" "t1") ∧
    use_command demoSheet 0 "0" "Root" "t1" =
      .ok (applyUse demoSheet 0 0 "Root" "t1") ∧
    (add_command demoSheet 0 "1.5" "Root" "t1" = .error .invalidAmount ∧
     use_command demoSheet 0 "1.5" "Root" "t1" = .error .invalidAmount ∧
     transfer_validate_amount "1.5" = .error .invalidAmount) ∧
    transfer_validate_amount "0" = .error .invalidAmount :=
  ⟨c7_amount_validation.1 demoSheet 0 "-5" (-5) "Root" "t1" (by decide),
   c7_amount_validation.2.1 demoSheet 0 "0" 0 "Root" "t1" (by decide),
   c7_amount_validation.2.2.1 demoSheet 0 "1.5" "Root" "t1" (by decide),
   c7_amount_validation.2.2.2 "0" 0 (by decide) (by decide)⟩

/-- C4: the source persists the manager set to `admins.json` whenever a
promotion succeeds, but initialises `ADMINS` to a hardcoded literal at
process start and never reads the file back, so a restart does not preserve
a promoted manager: the startup set differs from the persisted set. -/
theorem c4_manager_persistence_bug :
    (prom ⟨initialADMINS, none⟩ OWNER_ID 42 "alice").1 =
      PromOutcome.promoted ∧
    (prom ⟨initialADMINS, none⟩ OWNER_ID 42 "alice").2.savedFile =
      some (prom ⟨initialADMINS, none⟩ OWNER_ID 42 "alice").2.admins ∧
    startupAdmins (prom ⟨initialADMINS, none⟩ OWNER_ID 42 "alice").2.savedFile ≠
      (prom ⟨initialADMINS, none⟩ OWNER_ID 42 "alice").2.admins := by
  decide

/-- C6: for every account, `clear` sets the stored balance to 0, refreshes
the timestamp, empties the transaction log and contributions (so a
subsequent breakdown is empty and the balance is 0), and leaves the
identity columns (memberId, displayName, handle, profileLink) unchanged. -/
theorem c6_clear_spec (sheet : List Account) (r : Nat) (now : String)
    (h : r < sheet.length) :
    getRow (applyClear sheet r now) r =
      { getRow sheet r with
        balance := 0
        lastUpdated := now
        transactionLog := []
        contributions := [] } ∧
    get_contribution_breakdown (applyClear sheet r now) r = [] ∧
    (getRow (applyClear sheet r now) r).balance = 0 := by
  have h1 : r < (writeBalance sheet r 0).length := by
    rw [length_writeBalance]; exact h
  have h2 : r < (writeTimestamp (writeBalance sheet r 0) r now).length := by
    rw [length_writeTimestamp]; exact h1
  have h3 : r < (writeLog (writeTimestamp (writeBalance sheet r 0) r now) r []).length := by
    rw [length_writeLog]; exact h2
  have hrow : getRow (applyClear sheet r now) r =
      { getRow sheet r with
        balance := 0
        lastUpdated := now
        transactionLog := []
        contributions := [] } := by
    unfold applyClear
    rw [getRow_writeContrib_self _ _ _ h3, getRow_writeLog_self _ _ _ h2,
        getRow_writeTimestamp_self _ _ _ h1, getRow_writeBalance_self _ _ _ h]
  refine ⟨hrow, ?_, ?_⟩
  · unfold get_contribution_breakdown
    rw [hrow]
    simp
  · rw [hrow]

/-- C1: a successful transfer confirmation of amount A (known pending id,
confirming identity is the sender, re-read sender balance at least A)
decreases the sender's stored balance by exactly A, increases the target's
stored balance by exactly A, and prepends exactly one new entry to each of
the two transaction logs. -/
theorem c1_transfer_invariant (sheet : List Account) (pending : PendingMap)
    (tid : String) (userId : Nat) (now : String) (td : PendingTransfer)
    (h1 : lookupPending pending tid = some td)
    (h2 : td.sender_id = userId)
    (hs : td.sender_row < sheet.length) (ht : td.target_row < sheet.length)
    (hne : td.sender_row ≠ td.target_row)
    (hbal : td.amount ≤ (getRow sheet td.sender_row).balance) :
    (button_confirm sheet pending tid userId now).outcome = .success ∧
    (getRow (button_confirm sheet pending tid userId now).sheet
        td.sender_row).balance =
      (getRow sheet td.sender_row).balance - td.amount ∧
    (getRow (button_confirm sheet pending tid userId now).sheet
        td.target_row).balance =
      (getRow sheet td.target_row).balance + td.amount ∧
    (getRow (button_confirm sheet pending tid userId now).sheet
        td.sender_row).transactionLog =
      transfer_sender_entry now td.amount td.target_name ::
        (getRow sheet td.sender_row).transactionLog ∧
    (getRow (button_confirm sheet pending tid userId now).sheet
        td.target_row).transactionLog =
      transfer_target_entry now td.amount
          (getRow sheet td.sender_row).displayName ::
        (getRow sheet td.target_row).transactionLog := by
  have hb : ¬ ((getRow sheet td.sender_row).balance < td.amount) :=
    not_lt.mpr hbal
  have hres : button_confirm sheet pending tid userId now =
      ⟨.success, confirmWrites sheet td now, delPending pending tid⟩ := by
    simp [button_confirm, h1, h2, hb]
  obtain ⟨hsend, htar, _⟩ := confirmWrites_spec sheet td now hs ht hne
  rw [hres]
  exact ⟨rfl, by rw [hsend], by rw [htar], by rw [hsend], by rw [htar]⟩

theorem c1_transfer_invariant_witness :
    (button_confirm demoSheet demoPending "tid1" 42 "t1").outcome =
      ConfirmOutcome.success ∧
    (getRow (button_confirm demoSheet demoPending "tid1" 42 "t1").sheet
        demoTransfer.sender_row).balance =
      (getRow demoSheet demoTransfer.sender_row).balance -
        demoTransfer.amount ∧
    (getRow (button_confirm demoSheet demoPending "tid1" 42 "t1").sheet
        demoTransfer.target_row).balance =
      (getRow demoSheet demoTransfer.target_row).balance +
        demoTransfer.amount ∧
    (getRow (button_confirm demoSheet demoPending "tid1" 42 "t1").sheet
        demoTransfer.sender_row).transactionLog =
      transfer_sender_entry "t1" demoTransfer.amount
          demoTransfer.target_name ::
        (getRow demoSheet demoTransfer.sender_row).transactionLog ∧
    (getRow (button_confirm demoSheet demoPending "tid1" 42 "t1").sheet
        demoTransfer.target_row).transactionLog =
      transfer_target_entry "t1" demoTransfer.amount
          (getRow demoSheet demoTransfer.sender_row).displayName ::
        (getRow demoSheet demoTransfer.target_row).transactionLog :=
  c1_transfer_invariant demoSheet demoPending "tid1" 42 "t1" demoTransfer
    (by decide) (by decide) (by decide) (by decide) (by decide) (by decide)

/-- C9: a successful transfer confirmation leaves the stored contributions
mapping (column 8) of every row — in particular the sender's and the
target's — unchanged: transfers move balances and append log entries but
are never attributed to anyone's contribution totals. -/
theorem c9_transfer_preserves_contributions (sheet : List Account)
    (pending : PendingMap) (tid : String) (userId : Nat) (now : String)
    (td : PendingTransfer) (h1 : lookupPending pending tid = some td)
    (h2 : td.sender_id = userId)
    (hs : td.sender_row < sheet.length) (ht : td.target_row < sheet.length)
    (hne : td.sender_row ≠ td.target_row)
    (hbal : td.amount ≤ (getRow sheet td.sender_row).balance) :
    (button_confirm sheet pending tid userId now).outcome = .success ∧
    (∀ r, (getRow (button_confirm sheet pending tid userId now).sheet
        r).contributions = (getRow sheet r).contributions) := by
  have hb : ¬ ((getRow sheet td.sender_row).balance < td.amount) :=
    not_lt.mpr hbal
  have hres : button_confirm sheet pending tid userId now =
      ⟨.success, confirmWrites sheet td now, delPending pending tid⟩ := by
    simp [button_confirm, h1, h2, hb]
  obtain ⟨hsend, htar, hframe⟩ := confirmWrites_spec sheet td now hs ht hne
  rw [hres]
  refine ⟨rfl, ?_⟩
  intro r
  by_cases hrs : r = td.sender_row
  · subst hrs
    rw [hsend]
  · by_cases hrt : r = td.target_row
    · subst hrt
      rw [htar]
    · rw [hframe r hrs hrt]

theorem c9_transfer_preserves_contributions_witness :
    (button_confirm demoSheet demoPending "tid1" 42 "t1").outcome =
      ConfirmOutcome.success ∧
    (getRow (button_confirm demoSheet demoPending "tid1" 42 "t1").sheet
        0).contributions = (getRow demoSheet 0).contributions ∧
    (getRow (button_confirm demoSheet demoPending "tid1" 42 "t1").sheet
        1).contributions = (getRow demoSheet 1).contributions :=
  have h := c9_transfer_preserves_contributions demoSheet demoPending "tid1"
    42 "t1" demoTransfer (by decide) (by decide) (by decide) (by decide)
    (by decide) (by decide)
  ⟨h.1, h.2 0, h.2 1⟩

/-- C2 counterexample: an `add` of a negative amount by an actor with no
prior entry stores a strictly negative contribution entry and does not
delete it, so the contributions update is not
`contributions[actorName] += signedAmount` with deletion of results ≤ 0,
and stored entries can be non-positive after an `add`. -/
theorem c2_counterexample :
    (getRow (applyAdd demoSheet 1 (-5) "Root" "t1") 1).contributions =
      [("Root", -5)] ∧
    dictGet? (getRow (applyAdd demoSheet 1 (-5) "Root" "t1") 1).contributions
      "Root" = some (-5) ∧
    ((-5 : Int) ≤ 0) := by
  decide

/-- C2 (amended): `add` performs
`contributions[actorName] = contributions.get(actorName, 0) + amount` with
no deletion of non-positive results, so a zero or negative `add` can leave
a non-positive stored entry; `use` updates
`contributions[actorName] -= amount` only when the actor already has an
entry (otherwise the stored mapping is untouched) and deletes the entry
when the result is ≤ 0, so after a `use` the acting admin's stored entry,
if present, is strictly positive. -/
theorem c2_contributions_update (sheet : List Account) (r : Nat)
    (amount : Int) (adminName now : String) (h : r < sheet.length) :
    (getRow (applyAdd sheet r amount adminName now) r).contributions =
      dictSet (getRow sheet r).contributions adminName
        (dictGetD (getRow sheet r).contributions adminName 0 + amount) ∧
    (dictHas (getRow sheet r).contributions adminName = false →
      (getRow (applyUse sheet r amount adminName now) r).contributions =
        (getRow sheet r).contributions) ∧
    (dictHas (getRow sheet r).contributions adminName = true →
      (getRow (applyUse sheet r amount adminName now) r).contributions =
        (if dictGetD (getRow sheet r).contributions adminName 0 - amount ≤ 0
         then dictDel (getRow sheet r).contributions adminName
         else dictSet (getRow sheet r).contributions adminName
           (dictGetD (getRow sheet r).contributions adminName 0 - amount))) ∧
    (∀ v, dictGet?
        (getRow (applyUse sheet r amount adminName now) r).contributions
        adminName = some v → 0 < v) := by
  have hadd : (getRow (applyAdd sheet r amount adminName now) r).contributions =
      dictSet (getRow sheet r).contributions adminName
        (dictGetD (getRow sheet r).contributions adminName 0 + amount) := by
    simp only [applyAdd]
    simp [getRow_writeContrib_self, getRow_prependLog_self,
      getRow_writeTimestamp_self, getRow_writeBalance_self,
      length_writeBalance, length_writeTimestamp, length_prependLog, h]
  have huseF : dictHas (getRow sheet r).contributions adminName = false →
      (getRow (applyUse sheet r amount adminName now) r).contributions =
        (getRow sheet r).contributions := by
    intro hhas
    simp only [applyUse]
    simp [getRow_writeContrib_self, getRow_prependLog_self,
      getRow_writeTimestamp_self, getRow_writeBalance_self,
      length_writeBalance, length_writeTimestamp, length_prependLog, h, hhas]
  have huseT : dictHas (getRow sheet r).contributions adminName = true →
      (getRow (applyUse sheet r amount adminName now) r).contributions =
        (if dictGetD (getRow sheet r).contributions adminName 0 - amount ≤ 0
         then dictDel (getRow sheet r).contributions adminName
         else dictSet (getRow sheet r).contributions adminName
           (dictGetD (getRow sheet r).contributions adminName 0 - amount)) := by
    intro hhas
    simp only [applyUse]
    simp [getRow_writeContrib_self, getRow_prependLog_self,
      getRow_writeTimestamp_self, getRow_writeBalance_self,
      length_writeBalance, length_writeTimestamp, length_prependLog, h, hhas]
  refine ⟨hadd, huseF, huseT, ?_⟩
  intro v hv
  cases hhas : dictHas (getRow sheet r).contributions adminName with
  | false =>
    rw [huseF hhas] at hv
    rw [dictGet?_eq_none_of_not_has _ _ hhas] at hv
    exact absurd hv (by simp)
  | true =>
    rw [huseT hhas] at hv
    by_cases hle : dictGetD (getRow sheet r).contributions adminName 0
        - amount ≤ 0
    · rw [if_pos hle, dictGet?_dictDel_self] at hv
      exact absurd hv (by simp)
    · rw [if_neg hle, dictGet?_dictSet_self] at hv
      have hveq : dictGetD (getRow sheet r).contributions adminName 0
          - amount = v := by
        exact Option.some_injective _ hv
      omega

theorem c2_contributions_update_witness :
    ((getRow (applyAdd demoSheet 0 100 "Root" "t1") 0).contributions =
      dictSet (getRow demoSheet 0).contributions "Root"
        (dictGetD (getRow demoSheet 0).contributions "Root" 0 + 100)) ∧
    ((getRow (applyUse demoSheet 1 100 "Root" "t1") 1).contributions =
      (getRow demoSheet 1).contributions) ∧
    ((getRow (applyUse demoSheet 0 600 "Root" "t1") 0).contributions =
      (if dictGetD (getRow demoSheet 0).contributions "Root" 0 - 600 ≤ 0
       then dictDel (getRow demoSheet 0).contributions "Root"
       else dictSet (getRow demoSheet 0).contributions "Root"
         (dictGetD (getRow demoSheet 0).contributions "Root" 0 - 600))) ∧
    ((0 : Int) < 300) :=
  ⟨(c2_contributions_update demoSheet 0 100 "Root" "t1" (by decide)).1,
   (c2_contributions_update demoSheet 1 100 "Root" "t1" (by decide)).2.1
     (by decide),
   (c2_contributions_update demoSheet 0 600 "Root" "t1" (by decide)).2.2.1
     (by decide),
   (c2_contributions_update demoSheet 0 200 "Root" "t1" (by decide)).2.2.2
     300 (by decide)⟩

/-- C10: when a confirm fails with insufficient funds at confirm time, the
sheet is exactly as it was before the attempt — no balance, timestamp, log
or contribution write has happened to any row — and the only state change
is the removal of the pending entry. -/
theorem c10_insufficient_leaves_sheet_untouched (sheet : List Account)
    (pending : PendingMap) (tid : String) (userId : Nat) (now : String)
    (td : PendingTransfer) (h1 : lookupPending pending tid = some td)
    (h2 : td.sender_id = userId)
    (h3 : (getRow sheet td.sender_row).balance < td.amount) :
    button_confirm sheet pending tid userId now =
      ⟨.insufficientFunds, sheet, delPending pending tid⟩ := by
  simp [button_confirm, h1, h2, h3]

theorem c10_insufficient_leaves_sheet_untouched_witness :
    button_confirm demoSheet demoPending "tid2" 42 "t1" =
      ⟨.insufficientFunds, demoSheet, delPending demoPending "tid2"⟩ :=
  c10_insufficient_leaves_sheet_untouched demoSheet demoPending "tid2" 42 "t1"
    bigTransfer (by decide) (by decide) (by decide)

/-- C3: a confirm by the original sender whose re-read balance is strictly
below the amount fails with `InsufficientFunds` and removes the pending
proposal, so a subsequent confirm of the same id fails with `Expired`. -/
theorem c3_insufficient_then_expired (sheet : List Account)
    (pending : PendingMap) (tid : String) (userId : Nat) (now : String)
    (td : PendingTransfer) (h1 : lookupPending pending tid = some td)
    (h2 : td.sender_id = userId)
    (h3 : (getRow sheet td.sender_row).balance < td.amount) :
    (button_confirm sheet pending tid userId now).outcome =
      .insufficientFunds ∧
    (button_confirm sheet pending tid userId now).pending =
      delPending pending tid ∧
    lookupPending (delPending pending tid) tid = none ∧
    (∀ (sheet2 : List Account) (userId2 : Nat) (now2 : String),
      (button_confirm sheet2 (delPending pending tid) tid userId2 now2).outcome
        = .expired) := by
  refine ⟨?_, ?_, lookupPending_delPending pending tid, ?_⟩
  · simp [button_confirm, h1, h2, h3]
  · simp [button_confirm, h1, h2, h3]
  · intro sheet2 userId2 now2
    simp [button_confirm, lookupPending_delPending pending tid]

theorem c3_insufficient_then_expired_witness :
    (button_confirm demoSheet demoPending "tid2" 42 "t1").outcome =
      ConfirmOutcome.insufficientFunds ∧
    (button_confirm demoSheet demoPending "tid2" 42 "t1").pending =
      delPending demoPending "tid2" ∧
    lookupPending (delPending demoPending "tid2") "tid2" = none ∧
    (button_confirm demoSheet (delPending demoPending "tid2") "tid2" 42
      "t2").outcome = ConfirmOutcome.expired :=
  have h := c3_insufficient_then_expired demoSheet demoPending "tid2" 42 "t1"
    bigTransfer (by decide) (by decide) (by decide)
  ⟨h.1, h.2.1, h.2.2.1, h.2.2.2 demoSheet 42 "t2"⟩

/-- C5: confirming or cancelling a known pending transfer id with an
identity whose numeric id differs from the proposal's sender id fails with
`NotOwner`, and both the sheet and the pending map are left unchanged, the
proposal still present. -/
theorem c5_not_owner_untouched (sheet : List Account) (pending : PendingMap)
    (tid : String) (userId : Nat) (now : String) (td : PendingTransfer)
    (h1 : lookupPending pending tid = some td)
    (h2 : td.sender_id ≠ userId) :
    button_confirm sheet pending tid userId now = ⟨.notOwner, sheet, pending⟩ ∧
    button_cancel pending tid userId = (.notOwner, pending) ∧
    lookupPending (button_confirm sheet pending tid userId now).pending tid
      = some td := by
  have hc : button_confirm sheet pending tid userId now =
      ⟨.notOwner, sheet, pending⟩ := by
    simp [button_confirm, h1, h2]
  refine ⟨hc, ?_, ?_⟩
  · simp [button_cancel, h1, h2]
  · rw [hc]
    exact h1

theorem c5_not_owner_untouched_witness :
    button_confirm demoSheet demoPending "tid1" 7 "t1" =
      ⟨ConfirmOutcome.notOwner, demoSheet, demoPending⟩ ∧
    button_cancel demoPending "tid1" 7 =
      (CancelOutcome.notOwner, demoPending) ∧
    lookupPending (button_confirm demoSheet demoPending "tid1" 7 "t1").pending
      "tid1" = some demoTransfer :=
  c5_not_owner_untouched demoSheet demoPending "tid1" 7 "t1" demoTransfer
    (by decide) (by decide)

theorem c6_clear_spec_witness :
    getRow (applyClear demoSheet 0 "t9") 0 =
      { getRow demoSheet 0 with
        balance := 0
        lastUpdated := "t9"
        transactionLog := []
        contributions := [] } ∧
    get_contribution_breakdown (applyClear demoSheet 0 "t9") 0 = [] ∧
    (getRow (applyClear demoSheet 0 "t9") 0).balance = 0 :=
  c6_clear_spec demoSheet 0 "t9" (by decide)

end BankBot
